import Mathlib

/-!
# Selection Tracker & Splicer — verification of `TextEditor` (src/app.py)

Shallow embedding of the selection-tracking and splice-back mechanism of the
`TextEditor` controller: `copy_to_context` (capture) and `apply_modified`
(splice), together with the controller state they read and write
(`selection_start`, `selection_end`, and the owned `TextDocument`).

Python strings are modelled as `List Char`.  Python's `s.strip() == ""` test
is modelled by `pyStripEmpty` (all characters whitespace).  Python's
`s.find(needle)`, which returns the first index of an occurrence or `-1`, is
modelled by `findFrom` returning `Option Nat` (`-1` becomes `none`).  The
slice `s[a:b]` with clamped non-negative bounds is `pySlice`.
-/

set_option autoImplicit false

/-- A Python string, modelled as its list of characters. -/
abbrev Text := List Char

/-- Python `s.strip() == ""`: every character of `s` is whitespace
(in particular true for the empty string). -/
def pyStripEmpty (s : Text) : Bool :=
  s.all Char.isWhitespace

/-- Python `s[a:b]` for `0 ≤ a` and `0 ≤ b` (both clamped to `len s`,
empty when `b ≤ a`). -/
def pySlice (s : Text) (a b : Nat) : Text :=
  (s.take b).drop a

/-- `beginsWith needle hay`: `hay` starts with `needle`. -/
def beginsWith : Text → Text → Bool
  | [], _ => true
  | _ :: _, [] => false
  | a :: needle, b :: hay => a == b && beginsWith needle hay

/-- Python `hay.find(needle)`: index of the first occurrence of `needle`
in `hay`, with Python's `-1` result modelled as `none`. -/
def findFrom : Text → Text → Option Nat
  | [], needle => if beginsWith needle [] then some 0 else none
  | c :: rest, needle =>
      if beginsWith needle (c :: rest) then some 0
      else (findFrom rest needle).map (fun i => i + 1)

/-- The controller state relevant to the tracker/splicer: the two tracked
selection offsets (Python ints, so `Int`) and the owned `TextDocument`
(its text and footnotes; wall-clock metadata timestamps are not modelled). -/
structure EditorState where
  selection_start : Int
  selection_end : Int
  docText : Text
  footnotes : List Text
deriving DecidableEq

/-- Result of `copy_to_context`: the updated controller state, the text
returned into the context area, and whether the "No text to copy." warning
fired (in which case the function returned `""` without storing offsets). -/
structure CopyResult where
  state : EditorState
  ret : Text
  warned : Bool
deriving DecidableEq

/-- `TextEditor.copy_to_context(source_text, selected_text)` (src/app.py
lines 51–87): resolve the user's selection against the source text and
record the selection offsets. -/
def copy_to_context (st : EditorState) (source_text selected_text : Text) :
    CopyResult :=
  let text_to_copy := if pyStripEmpty selected_text then source_text else selected_text
  if pyStripEmpty text_to_copy then
    { state := st, ret := [], warned := true }
  else if text_to_copy ≠ source_text ∧ ¬ pyStripEmpty text_to_copy then
    match findFrom source_text text_to_copy with
    | some start_idx =>
        { state := { st with selection_start := (start_idx : Int),
                             selection_end := ((start_idx + text_to_copy.length : Nat) : Int) },
          ret := text_to_copy, warned := false }
    | none =>
        { state := { st with selection_start := 0,
                             selection_end := (source_text.length : Int) },
          ret := source_text, warned := false }
  else
    { state := { st with selection_start := 0,
                         selection_end := (source_text.length : Int) },
      ret := source_text, warned := false }

/-- The five exits of `apply_modified`: the four distinct refusals (each a
`gr.Warning` plus returning the input source text) and success. -/
inductive SpliceOutcome where
  | noContext
  | noModified
  | invalidIndices
  | mismatch
  | success
deriving DecidableEq

/-- Result of `apply_modified`: the updated controller state, the returned
source text, and which exit was taken. -/
structure SpliceResult where
  state : EditorState
  text : Text
  outcome : SpliceOutcome
deriving DecidableEq

/-- `TextEditor.apply_modified(source_text, context_text, modification_text)`
(src/app.py lines 89–123): validate the tracked offsets and context, then
splice the modified text over the selected region.  On success the document
text is updated (`self.document.update_text(new_source)`) and the offsets
are reset to `(0, 0)`. -/
def apply_modified (st : EditorState)
    (source_text context_text modification_text : Text) : SpliceResult :=
  if pyStripEmpty context_text then
    { state := st, text := source_text, outcome := .noContext }
  else if pyStripEmpty modification_text then
    { state := st, text := source_text, outcome := .noModified }
  else if st.selection_start < 0 ∨ st.selection_end < 0 ∨
      (source_text.length : Int) ≤ st.selection_start then
    { state := st, text := source_text, outcome := .invalidIndices }
  else
    let start_idx : Nat := (max 0 st.selection_start).toNat
    let end_idx : Nat := (min (source_text.length : Int) st.selection_end).toNat
    let selected_region := pySlice source_text start_idx end_idx
    if selected_region ≠ context_text then
      { state := st, text := source_text, outcome := .mismatch }
    else
      let new_source := source_text.take start_idx ++ modification_text ++
        source_text.drop end_idx
      { state := { selection_start := 0, selection_end := 0,
                   docText := new_source, footnotes := st.footnotes },
        text := new_source, outcome := .success }

/-! ## Basic lemmas about the string primitives -/

theorem pyStripEmpty_nil : pyStripEmpty ([] : Text) = true := rfl

theorem ne_nil_of_not_pyStripEmpty {s : Text} (h : ¬ pyStripEmpty s = true) :
    s ≠ [] := by
  intro hs
  exact h (hs ▸ pyStripEmpty_nil)

theorem pySlice_full (s : Text) : pySlice s 0 s.length = s := by
  simp [pySlice]

theorem pySlice_zero_zero (s : Text) : pySlice s 0 0 = [] := rfl

theorem length_pySlice (s : Text) (a b : Nat) :
    (pySlice s a b).length = min b s.length - a := by
  simp [pySlice]

theorem beginsWith_iff (needle hay : Text) :
    beginsWith needle hay = true ↔ ∃ t, hay = needle ++ t := by
  induction needle generalizing hay with
  | nil =>
    simp only [beginsWith, List.nil_append, true_iff]
    exact ⟨hay, rfl⟩
  | cons a as ih =>
    cases hay with
    | nil => simp [beginsWith]
    | cons b bs =>
      simp only [beginsWith, Bool.and_eq_true, beq_iff_eq, ih, List.cons_append,
        List.cons.injEq]
      constructor
      · rintro ⟨rfl, t, rfl⟩
        exact ⟨t, rfl, rfl⟩
      · rintro ⟨t, rfl, rfl⟩
        exact ⟨rfl, t, rfl⟩

theorem findFrom_of_beginsWith {hay needle : Text}
    (h : beginsWith needle hay = true) : findFrom hay needle = some 0 := by
  cases hay <;> simp [findFrom, h]

theorem findFrom_some {hay needle : Text} {i : Nat}
    (h : findFrom hay needle = some i) :
    i ≤ hay.length ∧ ∃ t, hay.drop i = needle ++ t := by
  induction hay generalizing i with
  | nil =>
    unfold findFrom at h
    split at h
    · obtain rfl : 0 = i := Option.some.inj h
      refine ⟨Nat.le_refl 0, ?_⟩
      obtain ⟨t, ht⟩ := (beginsWith_iff needle []).1 (by assumption)
      exact ⟨t, ht⟩
    · exact absurd h (by simp)
  | cons c rest ih =>
    unfold findFrom at h
    split at h
    · obtain rfl : 0 = i := Option.some.inj h
      refine ⟨Nat.zero_le _, ?_⟩
      obtain ⟨t, ht⟩ := (beginsWith_iff needle (c :: rest)).1 (by assumption)
      exact ⟨t, ht⟩
    · rw [Option.map_eq_some'] at h
      obtain ⟨j, hj, rfl⟩ := h
      obtain ⟨hle, t, ht⟩ := ih hj
      exact ⟨Nat.succ_le_succ hle, t, ht⟩

theorem findFrom_bound {hay needle : Text} {i : Nat}
    (h : findFrom hay needle = some i) :
    i + needle.length ≤ hay.length := by
  obtain ⟨hle, t, ht⟩ := findFrom_some h
  have hlen := congrArg List.length ht
  simp [List.length_drop] at hlen
  omega

theorem findFrom_slice {hay needle : Text} {i : Nat}
    (h : findFrom hay needle = some i) :
    pySlice hay i (i + needle.length) = needle := by
  obtain ⟨hle, t, ht⟩ := findFrom_some h
  unfold pySlice
  rw [List.drop_take, Nat.add_sub_cancel_left, ht, List.take_left]

theorem findFrom_ne_none (needle pre post : Text) :
    findFrom (pre ++ (needle ++ post)) needle ≠ none := by
  induction pre with
  | nil =>
    rw [List.nil_append,
      findFrom_of_beginsWith ((beginsWith_iff needle _).2 ⟨post, rfl⟩)]
    simp
  | cons c pre ih =>
    rw [List.cons_append]
    unfold findFrom
    split
    · simp
    · simpa [Option.map_eq_none'] using ih

/-! ## Branch characterizations of `copy_to_context` -/

theorem copy_warned (st : EditorState) (S sel : Text)
    (hsel : pyStripEmpty sel = true) (hS : pyStripEmpty S = true) :
    copy_to_context st S sel = ⟨st, [], true⟩ := by
  simp [copy_to_context, hsel, hS]

theorem copy_full_of_ws_sel (st : EditorState) (S sel : Text)
    (hsel : pyStripEmpty sel = true) (hS : ¬ pyStripEmpty S = true) :
    copy_to_context st S sel =
      ⟨⟨0, (S.length : Int), st.docText, st.footnotes⟩, S, false⟩ := by
  simp [copy_to_context, hsel, hS]

theorem copy_self (st : EditorState) (S : Text)
    (hS : ¬ pyStripEmpty S = true) :
    copy_to_context st S S =
      ⟨⟨0, (S.length : Int), st.docText, st.footnotes⟩, S, false⟩ := by
  simp [copy_to_context, hS]

theorem copy_found (st : EditorState) (S sel : Text) (i : Nat)
    (hsel : ¬ pyStripEmpty sel = true) (hne : sel ≠ S)
    (hfind : findFrom S sel = some i) :
    copy_to_context st S sel =
      ⟨⟨(i : Int), ((i + sel.length : Nat) : Int), st.docText, st.footnotes⟩,
        sel, false⟩ := by
  simp [copy_to_context, hsel, hne, hfind]

theorem copy_notfound (st : EditorState) (S sel : Text)
    (hsel : ¬ pyStripEmpty sel = true) (hne : sel ≠ S)
    (hfind : findFrom S sel = none) :
    copy_to_context st S sel =
      ⟨⟨0, (S.length : Int), st.docText, st.footnotes⟩, S, false⟩ := by
  simp [copy_to_context, hsel, hne, hfind]

/-! ## Branch characterizations of `apply_modified` -/

theorem apply_modified_noContext (st : EditorState) (S ctx M : Text)
    (hc : pyStripEmpty ctx = true) :
    apply_modified st S ctx M = ⟨st, S, .noContext⟩ := by
  simp [apply_modified, hc]

theorem apply_modified_noModified (st : EditorState) (S ctx M : Text)
    (hc : ¬ pyStripEmpty ctx = true) (hm : pyStripEmpty M = true) :
    apply_modified st S ctx M = ⟨st, S, .noModified⟩ := by
  simp [apply_modified, hc, hm]

theorem apply_modified_invalid (st : EditorState) (S ctx M : Text)
    (hc : ¬ pyStripEmpty ctx = true) (hm : ¬ pyStripEmpty M = true)
    (hidx : st.selection_start < 0 ∨ st.selection_end < 0 ∨
      (S.length : Int) ≤ st.selection_start) :
    apply_modified st S ctx M = ⟨st, S, .invalidIndices⟩ := by
  simp only [apply_modified, hc, hm]
  rw [if_neg (by simp [hc]), if_neg (by simp [hm]), if_pos hidx]

theorem apply_modified_mismatch (st : EditorState) (S ctx M : Text)
    (hc : ¬ pyStripEmpty ctx = true) (hm : ¬ pyStripEmpty M = true)
    (hidx : ¬ (st.selection_start < 0 ∨ st.selection_end < 0 ∨
      (S.length : Int) ≤ st.selection_start))
    (hne : pySlice S (max 0 st.selection_start).toNat
      (min (S.length : Int) st.selection_end).toNat ≠ ctx) :
    apply_modified st S ctx M = ⟨st, S, .mismatch⟩ := by
  simp only [apply_modified]
  rw [if_neg (by simp [hc]), if_neg (by simp [hm]), if_neg hidx, if_pos hne]

theorem apply_modified_success_eq (st : EditorState) (S ctx M : Text)
    (hc : ¬ pyStripEmpty ctx = true) (hm : ¬ pyStripEmpty M = true)
    (hidx : ¬ (st.selection_start < 0 ∨ st.selection_end < 0 ∨
      (S.length : Int) ≤ st.selection_start))
    (heq : pySlice S (max 0 st.selection_start).toNat
      (min (S.length : Int) st.selection_end).toNat = ctx) :
    apply_modified st S ctx M =
      ⟨⟨0, 0,
          S.take (max 0 st.selection_start).toNat ++ M ++
            S.drop (min (S.length : Int) st.selection_end).toNat,
          st.footnotes⟩,
        S.take (max 0 st.selection_start).toNat ++ M ++
          S.drop (min (S.length : Int) st.selection_end).toNat,
        .success⟩ := by
  simp only [apply_modified]
  rw [if_neg (by simp [hc]), if_neg (by simp [hm]), if_neg hidx,
    if_neg (by simp [heq])]

/-! ## Claim theorems -/

/-- C1 counterexample: with stored offsets `(0, 0)` (a valid pair for
`S = "ab"`, `0 ≤ 0 ≤ 0 ≤ 2`) and context text `S[0:0] = ""`, the splice
refuses ("no context selected") and returns `"ab"`, not
`S[:0] ++ "x" ++ S[0:] = "xab"` as the claim demands for every `M`. -/
theorem C1_counterexample :
    pySlice ['a', 'b'] 0 0 = ([] : Text) ∧
    (apply_modified ⟨0, 0, [], []⟩ ['a', 'b'] [] ['x']).text ≠
      (['a', 'b'] : Text).take 0 ++ ['x'] ++ (['a', 'b'] : Text).drop 0 := by
  decide

/-- C1 (amended): round-trip splice holds whenever offsets `(a, b)` are
pre-set with `0 ≤ a ≤ b ≤ len S`, the context text equals `S[a:b]`, and
additionally neither the context `S[a:b]` nor the modified text `M` is
empty/whitespace-only (otherwise the empty-input guards refuse):
then `apply_modified` returns `S[:a] ++ M ++ S[b:]`. -/
theorem C1_roundtrip_splice (S M doc : Text) (fns : List Text) (a b : Nat)
    (hab : a ≤ b) (hbS : b ≤ S.length)
    (hctx : ¬ pyStripEmpty (pySlice S a b) = true)
    (hM : ¬ pyStripEmpty M = true) :
    (apply_modified ⟨(a : Int), (b : Int), doc, fns⟩ S (pySlice S a b) M).text =
      S.take a ++ M ++ S.drop b := by
  have hne : pySlice S a b ≠ [] := ne_nil_of_not_pyStripEmpty hctx
  have hlt : a < S.length := by
    have h0 : (pySlice S a b).length ≠ 0 := fun h => hne (List.length_eq_zero.mp h)
    have hl := length_pySlice S a b
    omega
  have hidx : ¬ (((a : Nat) : Int) < 0 ∨ ((b : Nat) : Int) < 0 ∨
      (S.length : Int) ≤ ((a : Nat) : Int)) := by omega
  have h1 : (max 0 ((a : Nat) : Int)).toNat = a := by omega
  have h2 : (min ((S.length : Nat) : Int) ((b : Nat) : Int)).toNat = b := by omega
  have hreg : pySlice S (max 0 ((a : Nat) : Int)).toNat
      (min ((S.length : Nat) : Int) ((b : Nat) : Int)).toNat = pySlice S a b := by
    rw [h1, h2]
  have heq := apply_modified_success_eq ⟨(a : Int), (b : Int), doc, fns⟩
    S (pySlice S a b) M hctx hM hidx hreg
  rw [heq]
  show S.take (max 0 ((a : Nat) : Int)).toNat ++ M ++
      S.drop (min ((S.length : Nat) : Int) ((b : Nat) : Int)).toNat =
    S.take a ++ M ++ S.drop b
  rw [h1, h2]

/-- C1 witness: `S = "abcd"`, `(a, b) = (1, 3)`, context `"bc"`, `M = "Z"`
gives `"aZd"`. -/
theorem C1_roundtrip_splice_witness :
    (1 : Nat) ≤ 3 ∧ (3 : Nat) ≤ (['a', 'b', 'c', 'd'] : Text).length ∧
    ¬ pyStripEmpty (pySlice ['a', 'b', 'c', 'd'] 1 3) = true ∧
    ¬ pyStripEmpty ['Z'] = true ∧
    (apply_modified ⟨(1 : Nat), (3 : Nat), [], []⟩ ['a', 'b', 'c', 'd']
        (pySlice ['a', 'b', 'c', 'd'] 1 3) ['Z']).text =
      (['a', 'b', 'c', 'd'] : Text).take 1 ++ ['Z'] ++
        (['a', 'b', 'c', 'd'] : Text).drop 3 :=
  ⟨by decide, by decide, by decide, by decide,
    C1_roundtrip_splice ['a', 'b', 'c', 'd'] ['Z'] [] [] 1 3
      (by decide) (by decide) (by decide) (by decide)⟩

/-- C2: if the context and modified text are non-whitespace and the stored
offsets pass the index check, but the clamped region `S[start:end]` differs
from the context text, `apply_modified` refuses with the mismatch diagnostic
and returns the source text (and state) unchanged. -/
theorem C2_stale_selection_mismatch (st : EditorState) (S ctx M : Text)
    (hc : ¬ pyStripEmpty ctx = true) (hm : ¬ pyStripEmpty M = true)
    (hidx : ¬ (st.selection_start < 0 ∨ st.selection_end < 0 ∨
      (S.length : Int) ≤ st.selection_start))
    (hne : pySlice S (max 0 st.selection_start).toNat
      (min (S.length : Int) st.selection_end).toNat ≠ ctx) :
    apply_modified st S ctx M = ⟨st, S, .mismatch⟩ :=
  apply_modified_mismatch st S ctx M hc hm hidx hne

/-- C2 witness: offsets `(0, 1)` against `S = "ab"` select `"a"`, which
differs from the context `"x"`, so the splice refuses with `mismatch`. -/
theorem C2_stale_selection_mismatch_witness :
    ¬ pyStripEmpty ['x'] = true ∧ ¬ pyStripEmpty ['y'] = true ∧
    apply_modified ⟨0, 1, [], []⟩ ['a', 'b'] ['x'] ['y'] =
      ⟨⟨0, 1, [], []⟩, ['a', 'b'], .mismatch⟩ :=
  ⟨by decide, by decide,
    C2_stale_selection_mismatch ⟨0, 1, [], []⟩ ['a', 'b'] ['x'] ['y']
      (by decide) (by decide) (by decide) (by decide)⟩

/-- C3 counterexample: the empty string is a substring of the non-empty
source `"ab"`, but `copy_to_context` falls back to the full text and
returns `"ab"`, not the selected substring `""`. -/
theorem C3_counterexample :
    (['a', 'b'] : Text) ≠ [] ∧
    (['a', 'b'] : Text) = [] ++ ([] ++ ['a', 'b']) ∧
    (copy_to_context ⟨7, 7, [], []⟩ ['a', 'b'] []).ret ≠ ([] : Text) := by
  decide

/-- C3 (amended): for every source text and every substring `sel` of it
that is not empty/whitespace-only, `copy_to_context` stores offsets
`(start, end)` with `S[start:end] = sel` and returns `sel` as the context
text. -/
theorem C3_capture_resolves (st : EditorState) (S sel pre post : Text)
    (hsub : S = pre ++ (sel ++ post)) (hsel : ¬ pyStripEmpty sel = true) :
    (copy_to_context st S sel).ret = sel ∧
    pySlice S (copy_to_context st S sel).state.selection_start.toNat
      (copy_to_context st S sel).state.selection_end.toNat = sel := by
  by_cases hselS : sel = S
  · rw [← hselS, copy_self st sel (hselS ▸ hsel)]
    refine ⟨rfl, ?_⟩
    show pySlice sel (Int.toNat 0) ((sel.length : Int)).toNat = sel
    rw [Int.toNat_natCast]
    exact pySlice_full sel
  · cases hfind : findFrom S sel with
    | none =>
        exfalso
        rw [hsub] at hfind
        exact findFrom_ne_none sel pre post hfind
    | some i =>
        rw [copy_found st S sel i hsel hselS hfind]
        refine ⟨rfl, ?_⟩
        show pySlice S ((i : Int)).toNat (((i + sel.length : Nat) : Int)).toNat = sel
        rw [Int.toNat_natCast, Int.toNat_natCast]
        exact findFrom_slice hfind

/-- C3 witness: selecting `"b"` inside `"abc"` stores offsets `(1, 2)` with
`S[1:2] = "b"` and returns `"b"`. -/
theorem C3_capture_resolves_witness :
    (['a', 'b', 'c'] : Text) = ['a'] ++ (['b'] ++ ['c']) ∧
    ¬ pyStripEmpty ['b'] = true ∧
    ((copy_to_context ⟨7, 7, [], []⟩ ['a', 'b', 'c'] ['b']).ret = ['b'] ∧
      pySlice ['a', 'b', 'c']
        (copy_to_context ⟨7, 7, [], []⟩ ['a', 'b', 'c'] ['b']).state.selection_start.toNat
        (copy_to_context ⟨7, 7, [], []⟩ ['a', 'b', 'c'] ['b']).state.selection_end.toNat
        = ['b']) :=
  ⟨by decide, by decide,
    C3_capture_resolves ⟨7, 7, [], []⟩ ['a', 'b', 'c'] ['b'] ['a'] ['c']
      (by decide) (by decide)⟩

/-- C4 counterexample: with stored offsets `(0, -1)` against `S = "ab"`,
the claim's condition (`start < 0` or `start ≥ len S`) is false, yet the
code refuses with the "invalid selection indices" diagnostic because it
also checks `selection_end < 0`. -/
theorem C4_counterexample :
    ¬ ((0 : Int) < 0 ∨ ((['a', 'b'] : Text).length : Int) ≤ (0 : Int)) ∧
    (apply_modified ⟨0, -1, [], []⟩ ['a', 'b'] ['a'] ['y']).outcome =
      .invalidIndices := by
  decide

/-- C4 (amended): for non-whitespace context and modified text, the splice
refuses with the "invalid selection indices" diagnostic if and only if the
stored `start < 0` or `end < 0` or `start ≥ len S`. -/
theorem C4_invalid_indices_iff (st : EditorState) (S ctx M : Text)
    (hc : ¬ pyStripEmpty ctx = true) (hm : ¬ pyStripEmpty M = true) :
    (apply_modified st S ctx M).outcome = .invalidIndices ↔
      (st.selection_start < 0 ∨ st.selection_end < 0 ∨
        (S.length : Int) ≤ st.selection_start) := by
  by_cases hidx : st.selection_start < 0 ∨ st.selection_end < 0 ∨
      (S.length : Int) ≤ st.selection_start
  · rw [apply_modified_invalid st S ctx M hc hm hidx]
    exact iff_of_true rfl hidx
  · by_cases hreg : pySlice S (max 0 st.selection_start).toNat
        (min (S.length : Int) st.selection_end).toNat = ctx
    · rw [apply_modified_success_eq st S ctx M hc hm hidx hreg]
      exact iff_of_false (by simp) hidx
    · rw [apply_modified_mismatch st S ctx M hc hm hidx hreg]
      exact iff_of_false (by simp) hidx

/-- C4 witness: offsets `(-1, 0)` make the amended condition true, and the
splice indeed reports `invalidIndices`. -/
theorem C4_invalid_indices_iff_witness :
    ¬ pyStripEmpty ['b'] = true ∧ ¬ pyStripEmpty ['c'] = true ∧
    ((apply_modified ⟨-1, 0, [], []⟩ ['a'] ['b'] ['c']).outcome =
        .invalidIndices ↔
      ((-1 : Int) < 0 ∨ (0 : Int) < 0 ∨
        (((['a'] : Text).length : Nat) : Int) ≤ (-1 : Int))) :=
  ⟨by decide, by decide,
    C4_invalid_indices_iff ⟨-1, 0, [], []⟩ ['a'] ['b'] ['c']
      (by decide) (by decide)⟩

/-- C5: whenever `apply_modified` refuses (any outcome other than success),
it returns the input source text unchanged and leaves the whole controller
state — selection offsets and document — unmodified.  (In the model the
function is total, which reflects that no refusal path raises.) -/
theorem C5_refusal_atomicity (st : EditorState) (S ctx M : Text)
    (h : (apply_modified st S ctx M).outcome ≠ .success) :
    (apply_modified st S ctx M).state = st ∧
    (apply_modified st S ctx M).text = S := by
  by_cases hc : pyStripEmpty ctx = true
  · rw [apply_modified_noContext st S ctx M hc]
    exact ⟨rfl, rfl⟩
  · by_cases hm : pyStripEmpty M = true
    · rw [apply_modified_noModified st S ctx M hc hm]
      exact ⟨rfl, rfl⟩
    · by_cases hidx : st.selection_start < 0 ∨ st.selection_end < 0 ∨
          (S.length : Int) ≤ st.selection_start
      · rw [apply_modified_invalid st S ctx M hc hm hidx]
        exact ⟨rfl, rfl⟩
      · by_cases hreg : pySlice S (max 0 st.selection_start).toNat
            (min (S.length : Int) st.selection_end).toNat = ctx
        · exact absurd
            (by rw [apply_modified_success_eq st S ctx M hc hm hidx hreg]) h
        · rw [apply_modified_mismatch st S ctx M hc hm hidx hreg]
          exact ⟨rfl, rfl⟩

/-- C5 witness: an empty-context refusal leaves state and text unchanged. -/
theorem C5_refusal_atomicity_witness :
    (apply_modified ⟨2, 5, ['d'], []⟩ ['a'] [] ['x']).outcome ≠ .success ∧
    ((apply_modified ⟨2, 5, ['d'], []⟩ ['a'] [] ['x']).state =
        ⟨2, 5, ['d'], []⟩ ∧
      (apply_modified ⟨2, 5, ['d'], []⟩ ['a'] [] ['x']).text = ['a']) :=
  ⟨by decide,
    C5_refusal_atomicity ⟨2, 5, ['d'], []⟩ ['a'] [] ['x'] (by decide)⟩

/-- After the offsets have been reset to `(0, 0)`, a splice against a
non-empty source with a non-whitespace context always hits the mismatch
refusal: the recomputed region `N[0:0]` is empty. -/
theorem splice_after_reset (doc : Text) (fns : List Text) (N ctx M2 : Text)
    (hc : ¬ pyStripEmpty ctx = true) (hM2 : ¬ pyStripEmpty M2 = true)
    (hN : N ≠ []) :
    apply_modified ⟨0, 0, doc, fns⟩ N ctx M2 =
      ⟨⟨0, 0, doc, fns⟩, N, .mismatch⟩ := by
  apply apply_modified_mismatch
  · exact hc
  · exact hM2
  · show ¬ ((0 : Int) < 0 ∨ (0 : Int) < 0 ∨ (N.length : Int) ≤ 0)
    have hl : N.length ≠ 0 := fun h => hN (List.length_eq_zero.mp h)
    omega
  · show pySlice N (max 0 (0 : Int)).toNat (min (N.length : Int) (0 : Int)).toNat ≠ ctx
    have h1 : (max 0 (0 : Int)).toNat = 0 := rfl
    have h2 : (min (N.length : Int) (0 : Int)).toNat = 0 := by omega
    rw [h1, h2, pySlice_zero_zero]
    exact fun h => hc (h ▸ pyStripEmpty_nil)

/-- C6: after a successful splice of context `C` into `S` producing `N`,
a second splice on `N` with the same context `C` and any non-whitespace
modified text refuses (by the mismatch check, the offsets having been reset
to `(0, 0)`) and returns `N` and the state unchanged. -/
theorem C6_second_splice_refuses (st : EditorState) (S ctx M M2 : Text)
    (h1 : (apply_modified st S ctx M).outcome = .success)
    (hM2 : ¬ pyStripEmpty M2 = true) :
    (apply_modified (apply_modified st S ctx M).state
        (apply_modified st S ctx M).text ctx M2).outcome ≠ .success ∧
    apply_modified (apply_modified st S ctx M).state
        (apply_modified st S ctx M).text ctx M2 =
      ⟨(apply_modified st S ctx M).state, (apply_modified st S ctx M).text,
        .mismatch⟩ := by
  by_cases hc : pyStripEmpty ctx = true
  · rw [apply_modified_noContext st S ctx M hc] at h1
    exact absurd h1 (fun hh => nomatch hh)
  by_cases hm : pyStripEmpty M = true
  · rw [apply_modified_noModified st S ctx M hc hm] at h1
    exact absurd h1 (fun hh => nomatch hh)
  by_cases hidx : st.selection_start < 0 ∨ st.selection_end < 0 ∨
      (S.length : Int) ≤ st.selection_start
  · rw [apply_modified_invalid st S ctx M hc hm hidx] at h1
    exact absurd h1 (fun hh => nomatch hh)
  by_cases hreg : pySlice S (max 0 st.selection_start).toNat
      (min (S.length : Int) st.selection_end).toNat = ctx
  · rw [apply_modified_success_eq st S ctx M hc hm hidx hreg]
    have hMne : M ≠ [] := ne_nil_of_not_pyStripEmpty hm
    have hNne : S.take (max 0 st.selection_start).toNat ++ M ++
        S.drop (min (S.length : Int) st.selection_end).toNat ≠ [] := by
      simp only [ne_eq, List.append_eq_nil]
      exact fun h => hMne h.1.2
    have hmain := splice_after_reset
      (S.take (max 0 st.selection_start).toNat ++ M ++
        S.drop (min (S.length : Int) st.selection_end).toNat)
      st.footnotes
      (S.take (max 0 st.selection_start).toNat ++ M ++
        S.drop (min (S.length : Int) st.selection_end).toNat)
      ctx M2 hc hM2 hNne
    refine ⟨?_, hmain⟩
    show (apply_modified
        ⟨0, 0,
          S.take (max 0 st.selection_start).toNat ++ M ++
            S.drop (min (S.length : Int) st.selection_end).toNat,
          st.footnotes⟩
        (S.take (max 0 st.selection_start).toNat ++ M ++
          S.drop (min (S.length : Int) st.selection_end).toNat)
        ctx M2).outcome ≠ .success
    rw [hmain]
    exact fun hh => nomatch hh
  · rw [apply_modified_mismatch st S ctx M hc hm hidx hreg] at h1
    exact absurd h1 (fun hh => nomatch hh)

/-- C6 witness: splicing `"c"` over `"a"` in `"ab"` succeeds and yields
`"cb"`; a second splice with the same context `"a"` refuses. -/
theorem C6_second_splice_refuses_witness :
    (apply_modified ⟨0, 1, [], []⟩ ['a', 'b'] ['a'] ['c']).outcome =
      .success ∧
    ¬ pyStripEmpty ['d'] = true ∧
    ((apply_modified (apply_modified ⟨0, 1, [], []⟩ ['a', 'b'] ['a'] ['c']).state
        (apply_modified ⟨0, 1, [], []⟩ ['a', 'b'] ['a'] ['c']).text
        ['a'] ['d']).outcome ≠ .success ∧
      apply_modified (apply_modified ⟨0, 1, [], []⟩ ['a', 'b'] ['a'] ['c']).state
          (apply_modified ⟨0, 1, [], []⟩ ['a', 'b'] ['a'] ['c']).text
          ['a'] ['d'] =
        ⟨(apply_modified ⟨0, 1, [], []⟩ ['a', 'b'] ['a'] ['c']).state,
          (apply_modified ⟨0, 1, [], []⟩ ['a', 'b'] ['a'] ['c']).text,
          .mismatch⟩) :=
  ⟨by decide, by decide,
    C6_second_splice_refuses ⟨0, 1, [], []⟩ ['a', 'b'] ['a'] ['c'] ['d']
      (by decide) (by decide)⟩

/-- C7 counterexample: for the non-empty but whitespace-only source `" "`
with empty selection, `copy_to_context` fires the "No text to copy."
warning and returns `""` with the offsets untouched, instead of storing
`(0, 1)` and returning `" "` as the claim demands for every non-empty
source. -/
theorem C7_counterexample :
    ([' '] : Text) ≠ [] ∧
    (copy_to_context ⟨7, 7, [], []⟩ [' '] []).state.selection_end ≠ (1 : Int) ∧
    (copy_to_context ⟨7, 7, [], []⟩ [' '] []).ret ≠ ([' '] : Text) := by
  decide

/-- C7 (amended): for every source text that is not empty/whitespace-only,
if the selected text is empty/whitespace-only or does not occur verbatim in
the source, `copy_to_context` stores offsets `(0, len S)` and returns the
entire source text. -/
theorem C7_full_text_fallback (st : EditorState) (S sel : Text)
    (hS : ¬ pyStripEmpty S = true)
    (hsel : pyStripEmpty sel = true ∨ ∀ pre post : Text, S ≠ pre ++ (sel ++ post)) :
    copy_to_context st S sel =
      ⟨⟨0, (S.length : Int), st.docText, st.footnotes⟩, S, false⟩ := by
  by_cases hws : pyStripEmpty sel = true
  · exact copy_full_of_ws_sel st S sel hws hS
  · have hocc : ∀ pre post : Text, S ≠ pre ++ (sel ++ post) :=
      hsel.resolve_left hws
    have hneq : sel ≠ S := by
      intro h
      exact hocc [] [] (by simp [h])
    cases hfind : findFrom S sel with
    | some i =>
        exfalso
        obtain ⟨hle, t, ht⟩ := findFrom_some hfind
        exact hocc (S.take i) t (by rw [← ht, List.take_append_drop])
    | none => exact copy_notfound st S sel hws hneq hfind

/-- C7 witness: source `"a"`, whitespace selection `" "` → offsets `(0, 1)`
and the full text `"a"` returned. -/
theorem C7_full_text_fallback_witness :
    ¬ pyStripEmpty ['a'] = true ∧ pyStripEmpty [' '] = true ∧
    copy_to_context ⟨7, 7, [], []⟩ ['a'] [' '] =
      ⟨⟨0, 1, [], []⟩, ['a'], false⟩ :=
  ⟨by decide, by decide, by
    have h := C7_full_text_fallback ⟨7, 7, [], []⟩ ['a'] [' ']
      (by decide) (Or.inl (by decide))
    exact h⟩

/-- C8: every successful splice resets both stored selection offsets to
`(0, 0)`. -/
theorem C8_success_resets_offsets (st : EditorState) (S ctx M : Text)
    (h : (apply_modified st S ctx M).outcome = .success) :
    (apply_modified st S ctx M).state.selection_start = 0 ∧
    (apply_modified st S ctx M).state.selection_end = 0 := by
  by_cases hc : pyStripEmpty ctx = true
  · rw [apply_modified_noContext st S ctx M hc] at h
    exact absurd h (fun hh => nomatch hh)
  by_cases hm : pyStripEmpty M = true
  · rw [apply_modified_noModified st S ctx M hc hm] at h
    exact absurd h (fun hh => nomatch hh)
  by_cases hidx : st.selection_start < 0 ∨ st.selection_end < 0 ∨
      (S.length : Int) ≤ st.selection_start
  · rw [apply_modified_invalid st S ctx M hc hm hidx] at h
    exact absurd h (fun hh => nomatch hh)
  by_cases hreg : pySlice S (max 0 st.selection_start).toNat
      (min (S.length : Int) st.selection_end).toNat = ctx
  · rw [apply_modified_success_eq st S ctx M hc hm hidx hreg]
    exact ⟨rfl, rfl⟩
  · rw [apply_modified_mismatch st S ctx M hc hm hidx hreg] at h
    exact absurd h (fun hh => nomatch hh)

/-- C8 witness: the successful splice of `"c"` over `"a"` in `"ab"` resets
the offsets. -/
theorem C8_success_resets_offsets_witness :
    (apply_modified ⟨0, 1, [], []⟩ ['a', 'b'] ['a'] ['c']).outcome =
      .success ∧
    ((apply_modified ⟨0, 1, [], []⟩ ['a', 'b'] ['a'] ['c']).state.selection_start = 0 ∧
      (apply_modified ⟨0, 1, [], []⟩ ['a', 'b'] ['a'] ['c']).state.selection_end = 0) :=
  ⟨by decide,
    C8_success_resets_offsets ⟨0, 1, [], []⟩ ['a', 'b'] ['a'] ['c'] (by decide)⟩

/-- C9: any `copy_to_context` call that stores offsets (does not fire the
"No text to copy." warning) establishes
`0 ≤ selection_start ≤ selection_end ≤ len S`. -/
theorem C9_capture_offset_invariant (st : EditorState) (S sel : Text)
    (h : (copy_to_context st S sel).warned = false) :
    0 ≤ (copy_to_context st S sel).state.selection_start ∧
    (copy_to_context st S sel).state.selection_start ≤
      (copy_to_context st S sel).state.selection_end ∧
    (copy_to_context st S sel).state.selection_end ≤ (S.length : Int) := by
  by_cases hws : pyStripEmpty sel = true
  · by_cases hS : pyStripEmpty S = true
    · rw [copy_warned st S sel hws hS] at h
      exact absurd h (fun hh => nomatch hh)
    · rw [copy_full_of_ws_sel st S sel hws hS]
      refine ⟨?_, ?_, ?_⟩
      · show (0 : Int) ≤ 0
        omega
      · show (0 : Int) ≤ (S.length : Int)
        omega
      · show (S.length : Int) ≤ (S.length : Int)
        omega
  · by_cases hselS : sel = S
    · rw [← hselS, copy_self st sel (hselS ▸ hws)]
      refine ⟨?_, ?_, ?_⟩
      · show (0 : Int) ≤ 0
        omega
      · show (0 : Int) ≤ (sel.length : Int)
        omega
      · show (sel.length : Int) ≤ (sel.length : Int)
        omega
    · cases hfind : findFrom S sel with
      | some i =>
          rw [copy_found st S sel i hws hselS hfind]
          have hb := findFrom_bound hfind
          refine ⟨?_, ?_, ?_⟩
          · show (0 : Int) ≤ ((i : Nat) : Int)
            omega
          · show ((i : Nat) : Int) ≤ (((i + sel.length : Nat) : Nat) : Int)
            omega
          · show (((i + sel.length : Nat) : Nat) : Int) ≤ (S.length : Int)
            omega
      | none =>
          rw [copy_notfound st S sel hws hselS hfind]
          refine ⟨?_, ?_, ?_⟩
          · show (0 : Int) ≤ 0
            omega
          · show (0 : Int) ≤ (S.length : Int)
            omega
          · show (S.length : Int) ≤ (S.length : Int)
            omega

/-- C9 witness: capturing `"b"` from `"ab"` stores offsets `(1, 2)` with
`0 ≤ 1 ≤ 2 ≤ 2`. -/
theorem C9_capture_offset_invariant_witness :
    (copy_to_context ⟨7, 7, [], []⟩ ['a', 'b'] ['b']).warned = false ∧
    (0 ≤ (copy_to_context ⟨7, 7, [], []⟩ ['a', 'b'] ['b']).state.selection_start ∧
      (copy_to_context ⟨7, 7, [], []⟩ ['a', 'b'] ['b']).state.selection_start ≤
        (copy_to_context ⟨7, 7, [], []⟩ ['a', 'b'] ['b']).state.selection_end ∧
      (copy_to_context ⟨7, 7, [], []⟩ ['a', 'b'] ['b']).state.selection_end ≤
        ((['a', 'b'] : Text).length : Int)) :=
  ⟨by decide,
    C9_capture_offset_invariant ⟨7, 7, [], []⟩ ['a', 'b'] ['b'] (by decide)⟩

/-- C10: any `copy_to_context` call that stores offsets returns exactly the
slice `S[selection_start:selection_end]` of the source for the offsets it
stored — in the found case, the whitespace-only-selection case and the
not-found fallback case alike. -/
theorem C10_context_offset_coherence (st : EditorState) (S sel : Text)
    (h : (copy_to_context st S sel).warned = false) :
    (copy_to_context st S sel).ret =
      pySlice S (copy_to_context st S sel).state.selection_start.toNat
        (copy_to_context st S sel).state.selection_end.toNat := by
  by_cases hws : pyStripEmpty sel = true
  · by_cases hS : pyStripEmpty S = true
    · rw [copy_warned st S sel hws hS] at h
      exact absurd h (fun hh => nomatch hh)
    · rw [copy_full_of_ws_sel st S sel hws hS]
      exact (pySlice_full S).symm
  · by_cases hselS : sel = S
    · rw [← hselS, copy_self st sel (hselS ▸ hws)]
      show sel = pySlice sel (Int.toNat 0) ((sel.length : Int)).toNat
      exact (pySlice_full sel).symm
    · cases hfind : findFrom S sel with
      | some i =>
          rw [copy_found st S sel i hws hselS hfind]
          exact (findFrom_slice hfind).symm
      | none =>
          rw [copy_notfound st S sel hws hselS hfind]
          exact (pySlice_full S).symm

/-- C10 witness: capturing `"b"` from `"ab"` returns `"b"`, which equals
the stored slice `S[1:2]`. -/
theorem C10_context_offset_coherence_witness :
    (copy_to_context ⟨7, 7, [], []⟩ ['a', 'b'] ['b']).warned = false ∧
    (copy_to_context ⟨7, 7, [], []⟩ ['a', 'b'] ['b']).ret =
      pySlice ['a', 'b']
        (copy_to_context ⟨7, 7, [], []⟩ ['a', 'b'] ['b']).state.selection_start.toNat
        (copy_to_context ⟨7, 7, [], []⟩ ['a', 'b'] ['b']).state.selection_end.toNat :=
  ⟨by decide,
    C10_context_offset_coherence ⟨7, 7, [], []⟩ ['a', 'b'] ['b'] (by decide)⟩
